import Mathlib

/-!
Shallow embedding of the CipherStorm fraud-scoring pipeline
(`app/services/fraud_service.py`) and proofs about it.

Conventions of the embedding:
* Python floats and `Decimal`s are modelled as rationals (`ℚ`);
* Python values that may be `None` are modelled as `Option`;
* Python truthiness of strings (`None` and `""` are falsy) and of numbers
  (`0` is falsy) is modelled explicitly where the source relies on it;
* the mutation of encoder state (`np.append` on `classes_`, dict insertion)
  is modelled by returning the new table together with the encoded value;
* the pickled classifier artifact and the external UPI-verification HTTP
  call are opaque collaborators: they are modelled as an abstract
  `predict_proba` function and an abstract call outcome, respectively.
-/

set_option maxRecDepth 8000

namespace CipherStorm

/-- Truthiness of an optional string as Python evaluates it in a boolean
context (`if transaction_obj.beneficiary_vpa:`): `None` and `""` are falsy. -/
def truthyStr : Option String → Bool
  | none => false
  | some s => s != ""

/-- `str(value) if value is not None else "Unknown"` (lines 119 and 136):
only `None` is replaced by the sentinel; any string passes through. -/
def normalize_value : Option String → String
  | none => "Unknown"
  | some s => s

/-! ## Data model -/

/-- The fields of a `Transaction` record that the embedded functions read. -/
structure Transaction where
  amount : ℚ
  country : Option String
  beneficiary_vpa : Option String
  is_night : Bool

/-- The fields of a `Profile` record that the embedded functions read. -/
structure Profile where
  upi_id : Option String
  country : Option String
  transaction_limit : Option ℚ

/-! ## Layer A helpers (`is_amount_outlier`, lines 83-92) -/

/-- `is_amount_outlier(amount, amount_mean, amount_std)`: returns `0` when
`amount_std == 0` (the guard at line 89), otherwise `1` iff the absolute
z-score exceeds 3. -/
def is_amount_outlier (amount amount_mean amount_std : ℚ) : Nat :=
  if amount_std = 0 then 0
  else if |(amount - amount_mean) / amount_std| > 3 then 1 else 0

/-! ## Categorical encoders (lines 117-141)

A label encoder's state is its `classes_` array, modelled as
`Option (List String)`: `none` models an encoder object on which
`hasattr(encoder, 'classes_')` is false.  A frequency encoder's state is a
dict from string to count, modelled as an association list (Python dicts
preserve insertion order and `encoder_dict[new_key] = 1` appends). -/

/-- `handle_new_category_label_encoder(encoder, value)`: returns the updated
`classes_` state and the encoded id.  `encoder.transform([v])[0]` on a value
present in `classes_` is its positional index; an absent value is appended
and gets id `len(classes_)` before the append. -/
def handle_new_category_label_encoder (classes : Option (List String))
    (value : Option String) : Option (List String) × Nat :=
  let str_value := normalize_value value
  match classes with
  | none => (some [str_value], 0)
  | some cs =>
    if str_value ∈ cs then (some cs, cs.indexOf str_value)
    else (some (cs ++ [str_value]), cs.length)

/-- `handle_new_category_freq_encoder(encoder_dict, value)`: inserts an
absent key with count 1, then returns `encoder_dict[str_value]`. -/
def handle_new_category_freq_encoder (encoder_dict : List (String × Nat))
    (value : Option String) : List (String × Nat) × Nat :=
  let str_value := normalize_value value
  match List.lookup str_value encoder_dict with
  | some n => (encoder_dict, n)
  | none => (encoder_dict ++ [(str_value, 1)], 1)

/-- The `classes_` list of a label-encoder state (`[]` when the attribute
does not exist yet). -/
def label_classes (st : Option (List String)) : List String := st.getD []

/-- A sequence of label-encoder calls, threading the mutated state. -/
def label_encoder_run (st : Option (List String)) :
    List (Option String) → Option (List String)
  | [] => st
  | v :: vs => label_encoder_run (handle_new_category_label_encoder st v).1 vs

/-- A sequence of frequency-encoder calls, threading the mutated state. -/
def freq_encoder_run (d : List (String × Nat)) :
    List (Option String) → List (String × Nat)
  | [] => d
  | v :: vs => freq_encoder_run (handle_new_category_freq_encoder d v).1 vs

/-! ## Layer B: heuristics (`verify_upi_id`, `layer2_heuristics_check`,
lines 212-288) -/

/-- Outcome of the external Paysprint UPI-verification HTTP call: either an
HTTP response (with the optional `data.account_exists` field of its JSON
body) or a raised exception (network error, timeout, ...). -/
inductive UpiApiOutcome where
  | response (status_code : Nat) (account_exists : Option Bool)
  | exception

/-- `verify_upi_id` (lines 247-258): on a 200 response return
`result.get('data', {}).get('account_exists', False)`; on any other status
code, and on any raised exception, return `True` ("assume valid"). -/
def verify_upi_id : UpiApiOutcome → Bool
  | .response status data => if status = 200 then data.getD false else true
  | .exception => true

/-- Rule 1 (line 265): `profile_obj.transaction_limit and
float(transaction_obj.amount) > (0.95 * float(profile_obj.transaction_limit))`.
Python truthiness makes a `None` or zero limit short-circuit to false. -/
def limit_rule_fires (txn : Transaction) (profile : Profile) : Bool :=
  match profile.transaction_limit with
  | none => false
  | some l => decide (l ≠ 0) && decide (txn.amount > 95 / 100 * l)

/-- Rule 2 (lines 269-270): both countries truthy and different after
`.strip().lower()`. -/
def country_rule_fires (txn : Transaction) (profile : Profile) : Bool :=
  match profile.country, txn.country with
  | some p, some t =>
      (p != "") && (t != "") && (p.trim.toLower != t.trim.toLower)
  | _, _ => false

structure Layer2Result where
  rules_triggered : List String
  is_suspicious : Bool

/-- `layer2_heuristics_check(transaction_obj, profile_obj)` (lines 260-288),
with the outcome of the external UPI call passed in explicitly. -/
def layer2_heuristics_check (txn : Transaction) (profile : Profile)
    (upi : UpiApiOutcome) : Layer2Result :=
  let rules : List String :=
    (if limit_rule_fires txn profile
      then ["Amount exceeds 95% of transaction limit"] else []) ++
    (if country_rule_fires txn profile
      then ["Transaction country differs from profile country"] else []) ++
    (if truthyStr txn.beneficiary_vpa && !verify_upi_id upi
      then ["Invalid UPI ID"] else [])
  { rules_triggered := rules, is_suspicious := decide (0 < rules.length) }

/-! ## Layer C: rule-based local model (`rule_based_layer3_predict`,
lines 362-420) -/

/-- Per-user historical statistics (`get_user_transaction_stats`), consumed
by Layer C.  The three count tables are keyed by *encoded* values. -/
structure UserStats where
  amount_98_percentile : ℚ
  amount_85_percentile : ℚ
  amount_70_percentile : ℚ
  amount_80_percentile : ℚ
  amount_90_percentile : ℚ
  distance_85_percentile : ℚ
  qr_threshold : ℚ
  device_id_counts : List (Int × Nat)
  vpa_counts : List (Int × Nat)
  ip_counts : List (Int × Nat)

/-- `table.get(key, 0)` on a count table. -/
def countOf (tbl : List (Int × Nat)) (k : Int) : Nat :=
  (List.lookup k tbl).getD 0

/-- The feature view Layer C reads from the merged
"transaction with encoded features bolted on" object (lines 472-475):
`is_night` comes from the transaction, the rest from
`encode_local_features`, which always sets them. -/
structure EncodedFeatures where
  is_night : Bool
  payment_instrument : Int
  device_id : Int
  beneficiary_vpa : Int

/-- The `rules_triggered` list built by the five rules of
`rule_based_layer3_predict` (lines 370-395), in source order. -/
def layer3_rules_triggered (amount : ℚ) (feats : EncodedFeatures)
    (stats : UserStats) (distance_from_last : ℚ) : List String :=
  (if amount > stats.amount_98_percentile
    then ["Extreme High Amount"] else []) ++
  (if feats.is_night = true ∧ amount > stats.amount_80_percentile
    then ["Night High Amount"] else []) ++
  (if distance_from_last > stats.distance_85_percentile ∧
      amount > stats.amount_70_percentile
    then ["Geographic Distance + Amount"] else []) ++
  (if feats.payment_instrument = 0 ∧ amount > stats.qr_threshold
    then ["High Amount QR Transaction"] else []) ++
  (if countOf stats.device_id_counts feats.device_id ≤ 2 ∧
      countOf stats.vpa_counts feats.beneficiary_vpa ≤ 2 ∧
      amount > stats.amount_80_percentile
    then ["Multiple Rare Patterns"] else [])

/-- `rule_weights.get(rule, 0.5)` (lines 398-404 and 407). -/
def rule_weight (rule : String) : ℚ :=
  if rule = "Extreme High Amount" then 1
  else if rule = "Night High Amount" then 7 / 10
  else if rule = "Geographic Distance + Amount" then 8 / 10
  else if rule = "High Amount QR Transaction" then 6 / 10
  else if rule = "Multiple Rare Patterns" then 9 / 10
  else 1 / 2

/-- `max_possible_weight = sum(rule_weights.values())` (line 408). -/
def max_possible_weight : ℚ := 1 + 7 / 10 + 8 / 10 + 6 / 10 + 9 / 10

structure Layer3Result where
  is_anomaly : Bool
  rules_triggered : List String
  confidence : ℚ
  total_weight : ℚ

/-- `confidence = total_weight / max_possible_weight if max_possible_weight
> 0 else 0` (line 409), with `total_weight = sum(rule_weights.get(rule,
0.5) for rule in rules_triggered)` (line 407). -/
def layer3_confidence (rules : List String) : ℚ :=
  if max_possible_weight > 0 then
    (rules.map rule_weight).sum / max_possible_weight
  else 0

/-- `rule_based_layer3_predict` (lines 362-420): triggered rules, weighted
confidence, anomaly iff any rule triggered.  The source's
`int(is_anomaly)` is kept as a `Bool`. -/
def rule_based_layer3_predict (amount : ℚ) (feats : EncodedFeatures)
    (stats : UserStats) (distance_from_last : ℚ) : Layer3Result :=
  let rules := layer3_rules_triggered amount feats stats distance_from_last
  { is_anomaly := decide (0 < rules.length)
    rules_triggered := rules
    confidence := layer3_confidence rules
    total_weight := (rules.map rule_weight).sum }

/-- The empty Layer 3 result returned for the first 10 transactions
(lines 480-486). -/
def empty_layer3_result : Layer3Result :=
  { is_anomaly := false, rules_triggered := [], confidence := 0,
    total_weight := 0 }

/-- The Layer 3 gating of `run_fraud_pipeline` (lines 466-486): the local
model only runs when `txn_count > 10`. -/
def layer3_for_count (txn_count : Nat) (amount : ℚ) (feats : EncodedFeatures)
    (stats : UserStats) (distance_from_last : ℚ) : Layer3Result :=
  if txn_count > 10 then
    rule_based_layer3_predict amount feats stats distance_from_last
  else empty_layer3_result

/-! ## Startup artifact loading (lines 18-58) -/

/-- The pickled classifier artifact, opaque to this pipeline: only its
`predict_proba(X)[0][1]` probability is read (line 459). -/
structure GlobalModel where
  predict_proba : List ℚ → ℚ

/-- The state of an artifact file on disk at module-import time. -/
inductive ArtifactFile (α : Type) where
  | present (value : α)
  | missing
  | corrupt

/-- Module-level load of `global_model.pkl` (lines 19-25):
`pickle.load` inside `try/except FileNotFoundError`.  A missing file is
caught and `global_model` is set to `None`, so the import completes; an
exception other than `FileNotFoundError` (e.g. a corrupt pickle) is not
caught and aborts the import. -/
def load_global_model : ArtifactFile GlobalModel →
    Except String (Option GlobalModel)
  | .present m => Except.ok (some m)
  | .missing => Except.ok none
  | .corrupt => Except.error "unhandled exception during pickle.load"

/-- Module-level load of an encoder artifact (lines 27-58): same
`try/except FileNotFoundError` shape, with `{}` as the fallback value. -/
def load_encoder_artifact {α : Type} (empty : α) : ArtifactFile α →
    Except String α
  | .present e => Except.ok e
  | .missing => Except.ok empty
  | .corrupt => Except.error "unhandled exception during pickle.load"

/-! ## Fusion (`run_fraud_pipeline`, lines 422-518) -/

/-- The dict returned by `run_fraud_pipeline` (lines 509-518).  The
source's `int(final_prediction)` and the Layer 3 `int(is_anomaly)` are kept
as `Bool`s. -/
structure FraudVerdict where
  global_score : ℚ
  layer2_score : ℚ
  layer2_rules_triggered : List String
  layer3_score : ℚ
  local_layer_pred : Bool
  rules_triggered : List String
  final_score : ℚ
  final_prediction : Bool

/-- `run_fraud_pipeline` (lines 422-518).  The database-derived inputs
(`user_stats`, `distance_from_last`), the already-encoded global feature
vector `X_global` and local feature view `feats`, and the outcome of the
external UPI call are passed in explicitly; `global_model` is the
module-level artifact (`none` when loading failed).  Layer 1 defaults to
`0.5` and is overwritten by `predict_proba` only when the model is loaded
(lines 447-459); fusion and the final prediction are lines 488-496. -/
def run_fraud_pipeline (global_model : Option GlobalModel)
    (txn : Transaction) (profile : Profile) (txn_count : Nat)
    (upi : UpiApiOutcome) (user_stats : UserStats) (X_global : List ℚ)
    (feats : EncodedFeatures) (distance_from_last : ℚ) : FraudVerdict :=
  let global_score : ℚ :=
    match global_model with
    | none => 1 / 2
    | some m => m.predict_proba X_global
  let layer2_result := layer2_heuristics_check txn profile upi
  let layer3_result :=
    layer3_for_count txn_count txn.amount feats user_stats distance_from_last
  let final_score : ℚ :=
    if layer2_result.is_suspicious || layer3_result.is_anomaly then
      global_score * (3 / 10) +
        (if layer2_result.is_suspicious then 4 / 10 else 0) +
        layer3_result.confidence * (3 / 10)
    else global_score
  let final_prediction : Bool :=
    decide (final_score > 1 / 2) || layer2_result.is_suspicious ||
      layer3_result.is_anomaly
  { global_score := global_score
    layer2_score := if layer2_result.is_suspicious then 4 / 10 else 0
    layer2_rules_triggered := layer2_result.rules_triggered
    layer3_score := layer3_result.confidence
    local_layer_pred := layer3_result.is_anomaly
    rules_triggered := layer3_result.rules_triggered
    final_score := final_score
    final_prediction := final_prediction }

/-! ## Helper lemmas -/

theorem lookup_append_of_none {k : String} (d e : List (String × Nat))
    (h : List.lookup k d = none) :
    List.lookup k (d ++ e) = List.lookup k e := by
  induction d with
  | nil => rfl
  | cons p d ih =>
    obtain ⟨q, v⟩ := p
    by_cases hk : (k == q) = true
    · simp [List.lookup, hk] at h
    · simp only [List.cons_append, List.lookup, hk] at h ⊢
      exact ih h

theorem label_step_append_only (st : Option (List String))
    (v : Option String) :
    ∃ t, label_classes (handle_new_category_label_encoder st v).1 =
      label_classes st ++ t ∧ t.length ≤ 1 := by
  cases st with
  | none =>
      exact ⟨[normalize_value v],
        by simp [handle_new_category_label_encoder, label_classes], by simp⟩
  | some cs =>
      by_cases h : normalize_value v ∈ cs
      · exact ⟨[],
          by simp [handle_new_category_label_encoder, h, label_classes],
          by simp⟩
      · exact ⟨[normalize_value v],
          by simp [handle_new_category_label_encoder, h, label_classes],
          by simp⟩

theorem label_run_append_only (vs : List (Option String)) :
    ∀ st, ∃ t, label_classes (label_encoder_run st vs) =
      label_classes st ++ t := by
  induction vs with
  | nil => intro st; exact ⟨[], by simp [label_encoder_run]⟩
  | cons v vs ih =>
    intro st
    obtain ⟨t1, h1, _⟩ := label_step_append_only st v
    obtain ⟨t2, h2⟩ := ih (handle_new_category_label_encoder st v).1
    refine ⟨t1 ++ t2, ?_⟩
    rw [label_encoder_run, h2, h1, List.append_assoc]

theorem freq_step_append_only (d : List (String × Nat))
    (v : Option String) :
    ∃ t, (handle_new_category_freq_encoder d v).1 = d ++ t ∧
      t.length ≤ 1 := by
  unfold handle_new_category_freq_encoder
  cases h : List.lookup (normalize_value v) d with
  | some n => exact ⟨[], by simp [h], by simp⟩
  | none => exact ⟨[(normalize_value v, 1)], by simp [h], by simp⟩

theorem freq_run_append_only (vs : List (Option String)) :
    ∀ d, ∃ t, freq_encoder_run d vs = d ++ t := by
  induction vs with
  | nil => intro d; exact ⟨[], by simp [freq_encoder_run]⟩
  | cons v vs ih =>
    intro d
    obtain ⟨t1, h1, _⟩ := freq_step_append_only d v
    obtain ⟨t2, h2⟩ := ih (handle_new_category_freq_encoder d v).1
    refine ⟨t1 ++ t2, ?_⟩
    rw [freq_encoder_run, h2, h1, List.append_assoc]

/-! ## Claims about the encoders -/

/-- C4: for a label-encoded feature, a raw value (with `None` normalized to
`"Unknown"`) already in the class list is encoded to its existing index
(the class at that index is the value itself) and the table is unchanged;
an unseen value is appended as a new class and encoded to the previous
class count; an encoder without a `classes_` attribute is initialized.
The function is total, so encoding never errors on an unseen value. -/
theorem label_encoder_encode_spec (cs : List String) (v : Option String) :
    (normalize_value v ∈ cs →
      handle_new_category_label_encoder (some cs) v =
        (some cs, cs.indexOf (normalize_value v)) ∧
      cs[cs.indexOf (normalize_value v)]? = some (normalize_value v)) ∧
    (normalize_value v ∉ cs →
      handle_new_category_label_encoder (some cs) v =
        (some (cs ++ [normalize_value v]), cs.length)) ∧
    handle_new_category_label_encoder none v = (some [normalize_value v], 0) := by
  refine ⟨fun h => ⟨?_, ?_⟩, fun h => ?_, rfl⟩
  · simp [handle_new_category_label_encoder, h]
  · exact List.getElem?_indexOf h
  · simp [handle_new_category_label_encoder, h]

/-- C4 witness: encoding `"B"` against classes `["A", "B"]` returns index 1
and leaves the table unchanged; encoding the unseen `"C"` appends it and
returns 2, the class count before the append. -/
theorem label_encoder_encode_spec_witness :
    handle_new_category_label_encoder (some ["A", "B"]) (some "B") =
      (some ["A", "B"], 1) ∧
    handle_new_category_label_encoder (some ["A", "B"]) (some "C") =
      (some ["A", "B", "C"], 2) := by
  have h1 := (label_encoder_encode_spec ["A", "B"] (some "B")).1 (by decide)
  have h2 := (label_encoder_encode_spec ["A", "B"] (some "C")).2.1 (by decide)
  exact ⟨by simpa [normalize_value] using h1.1,
    by simpa [normalize_value] using h2⟩

/-- C5: frequency encoding is idempotent during scoring: a never-before-seen
value is inserted with count 1 and encoded to 1, and encoding the same value
again returns the same count 1 from the unchanged table, so both encodings
within one scoring call yield the same code. -/
theorem freq_encoder_idempotent (d : List (String × Nat)) (v : Option String)
    (hnew : List.lookup (normalize_value v) d = none) :
    handle_new_category_freq_encoder d v =
      (d ++ [(normalize_value v, 1)], 1) ∧
    handle_new_category_freq_encoder
        (handle_new_category_freq_encoder d v).1 v =
      ((handle_new_category_freq_encoder d v).1, 1) ∧
    (handle_new_category_freq_encoder
        (handle_new_category_freq_encoder d v).1 v).2 =
      (handle_new_category_freq_encoder d v).2 := by
  have hfirst : handle_new_category_freq_encoder d v =
      (d ++ [(normalize_value v, 1)], 1) := by
    simp [handle_new_category_freq_encoder, hnew]
  have hlook : List.lookup (normalize_value v)
      (d ++ [(normalize_value v, 1)]) = some 1 := by
    rw [lookup_append_of_none d _ hnew]
    simp [List.lookup]
  have hsecond : handle_new_category_freq_encoder
      (d ++ [(normalize_value v, 1)]) v =
      (d ++ [(normalize_value v, 1)], 1) := by
    simp [handle_new_category_freq_encoder, hlook]
  refine ⟨hfirst, ?_, ?_⟩ <;> rw [hfirst]
  · exact hsecond
  · show (handle_new_category_freq_encoder
        (d ++ [(normalize_value v, 1)]) v).2 = 1
    rw [hsecond]

/-- C5 witness: encoding the unseen `"x"` against the table `[("a", 3)]`
inserts it with count 1 and returns 1 both times. -/
theorem freq_encoder_idempotent_witness :
    handle_new_category_freq_encoder [("a", 3)] (some "x") =
      ([("a", 3), ("x", 1)], 1) ∧
    handle_new_category_freq_encoder [("a", 3), ("x", 1)] (some "x") =
      ([("a", 3), ("x", 1)], 1) := by
  have h := freq_encoder_idempotent [("a", 3)] (some "x") (by decide)
  refine ⟨by simpa [normalize_value] using h.1, ?_⟩
  have h2 := h.2.1
  rw [h.1] at h2
  simpa [normalize_value] using h2

/-- C6: encoder state is monotonically append-only: one label- or
frequency-encoder call appends at most one entry and deletes nothing, and
across any sequence of calls the original table is an unchanged prefix of
the final one, so the class count (respectively key count) never
decreases. -/
theorem encoder_tables_append_only (st : Option (List String))
    (d : List (String × Nat)) (v : Option String)
    (vs : List (Option String)) :
    (∃ t, label_classes (handle_new_category_label_encoder st v).1 =
      label_classes st ++ t ∧ t.length ≤ 1) ∧
    (∃ t, label_classes (label_encoder_run st vs) = label_classes st ++ t) ∧
    (label_classes st).length ≤
      (label_classes (label_encoder_run st vs)).length ∧
    (∃ t, (handle_new_category_freq_encoder d v).1 = d ++ t ∧
      t.length ≤ 1) ∧
    (∃ t, freq_encoder_run d vs = d ++ t) ∧
    d.length ≤ (freq_encoder_run d vs).length := by
  obtain ⟨t1, h1⟩ := label_run_append_only vs st
  obtain ⟨t2, h2⟩ := freq_run_append_only vs d
  refine ⟨label_step_append_only st v, ⟨t1, h1⟩, ?_,
    freq_step_append_only d v, ⟨t2, h2⟩, ?_⟩
  · rw [h1]; simp
  · rw [h2]; simp

/-! ## Claims about Layer A's outlier guard and Layer B -/

/-- C8: `is_amount_outlier` is total and guarded: with standard deviation 0
the flag is 0 (the division is never reached), and otherwise the flag is 1
exactly when the absolute z-score exceeds 3 — for the nonnegative standard
deviations produced by `np.std`, that is exactly `|amount − mean| / stddev
> 3`. -/
theorem is_amount_outlier_total_and_guarded (amount mean std : ℚ) :
    (std = 0 → is_amount_outlier amount mean std = 0) ∧
    (std ≠ 0 →
      (is_amount_outlier amount mean std = 1 ↔
        |(amount - mean) / std| > 3) ∧
      (is_amount_outlier amount mean std = 0 ↔
        ¬ |(amount - mean) / std| > 3)) ∧
    (0 < std →
      (is_amount_outlier amount mean std = 1 ↔
        |amount - mean| / std > 3)) := by
  refine ⟨fun h => ?_, fun h => ⟨?_, ?_⟩, fun h => ?_⟩
  · simp [is_amount_outlier, h]
  · simp only [is_amount_outlier, if_neg h]
    split_ifs with hz
    · simp [hz]
    · simp [hz]
  · simp only [is_amount_outlier, if_neg h]
    split_ifs with hz
    · simp [hz]
    · simp [hz]
  · have hne : std ≠ 0 := ne_of_gt h
    simp only [is_amount_outlier, if_neg hne]
    rw [abs_div, abs_of_pos h]
    split_ifs with hz
    · simp [hz]
    · simp [hz]

/-- C8 witness: with mean 100 and stddev 0 any amount (here 10⁶) yields
flag 0; with mean 0 and stddev 1, amount 1000 yields flag 1 since
`|1000 − 0| / 1 > 3`. -/
theorem is_amount_outlier_total_and_guarded_witness :
    is_amount_outlier 1000000 100 0 = 0 ∧ is_amount_outlier 1000 0 1 = 1 := by
  constructor
  · exact (is_amount_outlier_total_and_guarded 1000000 100 0).1 rfl
  · exact ((is_amount_outlier_total_and_guarded 1000 0 1).2.2
      (by norm_num)).mpr (by norm_num)

/-- C9: the beneficiary check fails open: any non-200 response and any
raised exception make `verify_upi_id` return true ("assume valid"), so the
"Invalid UPI ID" rule is in the triggered set iff the beneficiary
identifier is truthy and `verify_upi_id` returned false — which happens
only on a successful 200 response whose `account_exists` field reads
false. -/
theorem upi_verification_fails_open (txn : Transaction) (profile : Profile)
    (upi : UpiApiOutcome) :
    (∀ code data, code ≠ 200 →
      verify_upi_id (UpiApiOutcome.response code data) = true) ∧
    verify_upi_id UpiApiOutcome.exception = true ∧
    ("Invalid UPI ID" ∈
        (layer2_heuristics_check txn profile upi).rules_triggered ↔
      truthyStr txn.beneficiary_vpa = true ∧ verify_upi_id upi = false) ∧
    (verify_upi_id upi = false →
      ∃ data, upi = UpiApiOutcome.response 200 data ∧
        data.getD false = false) := by
  refine ⟨fun code data hc => ?_, rfl, ?_, fun hfalse => ?_⟩
  · simp [verify_upi_id, hc]
  · simp only [layer2_heuristics_check, List.mem_append]
    split_ifs with h1 h2 h3 <;>
      simp_all [Bool.and_eq_true, Bool.not_eq_true']
  · cases upi with
    | exception => simp [verify_upi_id] at hfalse
    | response code data =>
        simp only [verify_upi_id] at hfalse
        split_ifs at hfalse with hc
        · exact ⟨data, by rw [hc], hfalse⟩

/-- C9 witness: a 500 response and an exception both verify as valid, and
a concrete failing verifier outcome never puts "Invalid UPI ID" into the
triggered set. -/
theorem upi_verification_fails_open_witness :
    verify_upi_id (UpiApiOutcome.response 500 none) = true ∧
    "Invalid UPI ID" ∉
      (layer2_heuristics_check
        { amount := 100, country := none,
          beneficiary_vpa := some "x@upi", is_night := false }
        { upi_id := none, country := none, transaction_limit := none }
        UpiApiOutcome.exception).rules_triggered := by
  have h := upi_verification_fails_open
    { amount := 100, country := none, beneficiary_vpa := some "x@upi",
      is_night := false }
    { upi_id := none, country := none, transaction_limit := none }
    UpiApiOutcome.exception
  refine ⟨h.1 500 none (by decide), fun hmem => ?_⟩
  have := (h.2.2.1.mp hmem).2
  simp [verify_upi_id] at this

/-- C10: a profile whose `transaction_limit` is present but 0 is treated by
Python truthiness exactly like an absent limit: the "amount exceeds 95% of
limit" rule can never fire, whatever the transaction amount. -/
theorem zero_limit_never_triggers_limit_rule (txn : Transaction)
    (profile : Profile) (upi : UpiApiOutcome)
    (h : profile.transaction_limit = some 0) :
    limit_rule_fires txn profile = false ∧
    "Amount exceeds 95% of transaction limit" ∉
      (layer2_heuristics_check txn profile upi).rules_triggered := by
  have hf : limit_rule_fires txn profile = false := by
    simp [limit_rule_fires, h]
  refine ⟨hf, ?_⟩
  simp only [layer2_heuristics_check, List.mem_append, hf]
  split_ifs <;> simp_all

/-- C10 witness: with a limit of 0 and an amount of 10⁶ (far above
`0.95 × 0 = 0`), the limit rule does not fire. -/
theorem zero_limit_never_triggers_limit_rule_witness :
    limit_rule_fires
      { amount := 1000000, country := none, beneficiary_vpa := none,
        is_night := false }
      { upi_id := none, country := none, transaction_limit := some 0 } =
      false := by
  exact (zero_limit_never_triggers_limit_rule
    { amount := 1000000, country := none, beneficiary_vpa := none,
      is_night := false }
    { upi_id := none, country := none, transaction_limit := some 0 }
    UpiApiOutcome.exception rfl).1

/-! ## Helper lemmas for the pipeline -/

theorem layer3_weight_sum_bounds (amount : ℚ) (feats : EncodedFeatures)
    (stats : UserStats) (dist : ℚ) :
    0 ≤ ((layer3_rules_triggered amount feats stats dist).map
      rule_weight).sum ∧
    ((layer3_rules_triggered amount feats stats dist).map
      rule_weight).sum ≤ max_possible_weight := by
  unfold layer3_rules_triggered
  split_ifs
  all_goals try simp [rule_weight, max_possible_weight]
  all_goals norm_num

theorem layer3_confidence_bounds (amount : ℚ) (feats : EncodedFeatures)
    (stats : UserStats) (dist : ℚ) :
    0 ≤ (rule_based_layer3_predict amount feats stats dist).confidence ∧
    (rule_based_layer3_predict amount feats stats dist).confidence ≤ 1 := by
  obtain ⟨h0, h1⟩ := layer3_weight_sum_bounds amount feats stats dist
  have hmax : max_possible_weight = 4 := by norm_num [max_possible_weight]
  show 0 ≤ layer3_confidence (layer3_rules_triggered amount feats stats dist) ∧
    layer3_confidence (layer3_rules_triggered amount feats stats dist) ≤ 1
  unfold layer3_confidence
  rw [if_pos (by norm_num [max_possible_weight] : max_possible_weight > 0)]
  constructor
  · exact div_nonneg h0 (by rw [hmax]; norm_num)
  · rw [div_le_one (by rw [hmax]; norm_num)]
    linarith [h1]

theorem layer3_for_count_confidence_bounds (cnt : Nat) (amount : ℚ)
    (feats : EncodedFeatures) (stats : UserStats) (dist : ℚ) :
    0 ≤ (layer3_for_count cnt amount feats stats dist).confidence ∧
    (layer3_for_count cnt amount feats stats dist).confidence ≤ 1 := by
  unfold layer3_for_count
  split_ifs
  · exact layer3_confidence_bounds amount feats stats dist
  · simp [empty_layer3_result]

section Pipeline

variable (gm : Option GlobalModel) (txn : Transaction) (profile : Profile)
variable (cnt : Nat) (upi : UpiApiOutcome) (stats : UserStats)
variable (X : List ℚ) (feats : EncodedFeatures) (dist : ℚ)

theorem run_fraud_pipeline_global_score :
    (run_fraud_pipeline gm txn profile cnt upi stats X feats
      dist).global_score =
    match gm with
    | none => 1 / 2
    | some m => m.predict_proba X := rfl

theorem run_fraud_pipeline_final_score :
    (run_fraud_pipeline gm txn profile cnt upi stats X feats
      dist).final_score =
    (if (layer2_heuristics_check txn profile upi).is_suspicious ||
        (layer3_for_count cnt txn.amount feats stats dist).is_anomaly then
      (run_fraud_pipeline gm txn profile cnt upi stats X feats
        dist).global_score * (3 / 10) +
      (if (layer2_heuristics_check txn profile upi).is_suspicious
        then 4 / 10 else 0) +
      (layer3_for_count cnt txn.amount feats stats
        dist).confidence * (3 / 10)
    else
      (run_fraud_pipeline gm txn profile cnt upi stats X feats
        dist).global_score) := rfl

theorem run_fraud_pipeline_final_prediction :
    (run_fraud_pipeline gm txn profile cnt upi stats X feats
      dist).final_prediction =
    (decide ((run_fraud_pipeline gm txn profile cnt upi stats X feats
        dist).final_score > 1 / 2) ||
      (layer2_heuristics_check txn profile upi).is_suspicious ||
      (layer3_for_count cnt txn.amount feats stats dist).is_anomaly) := rfl

theorem run_fraud_pipeline_layer3_fields :
    (run_fraud_pipeline gm txn profile cnt upi stats X feats
      dist).local_layer_pred =
      (layer3_for_count cnt txn.amount feats stats dist).is_anomaly ∧
    (run_fraud_pipeline gm txn profile cnt upi stats X feats
      dist).layer3_score =
      (layer3_for_count cnt txn.amount feats stats dist).confidence ∧
    (run_fraud_pipeline gm txn profile cnt upi stats X feats
      dist).rules_triggered =
      (layer3_for_count cnt txn.amount feats stats dist).rules_triggered :=
  ⟨rfl, rfl, rfl⟩

/-! ## Claims about the fusion engine and pipeline -/

/-- C1: fusion of the pipeline's layer outputs: with neither a Layer B
trigger nor a Layer C trigger the final score is the global score;
otherwise it is `0.3·g + (0.4 if suspicious) + 0.3·c`; and the final
prediction is true iff the final score exceeds 0.5 or either rule layer
triggered — so any Layer B or Layer C trigger forces prediction 1 even
when the blended score is at most 0.5. -/
theorem fusion_formula_and_override :
    ((layer2_heuristics_check txn profile upi).is_suspicious = false →
      (layer3_for_count cnt txn.amount feats stats dist).is_anomaly = false →
      (run_fraud_pipeline gm txn profile cnt upi stats X feats
        dist).final_score =
      (run_fraud_pipeline gm txn profile cnt upi stats X feats
        dist).global_score) ∧
    (((layer2_heuristics_check txn profile upi).is_suspicious = true ∨
      (layer3_for_count cnt txn.amount feats stats dist).is_anomaly = true) →
      (run_fraud_pipeline gm txn profile cnt upi stats X feats
        dist).final_score =
      3 / 10 * (run_fraud_pipeline gm txn profile cnt upi stats X feats
        dist).global_score +
      (if (layer2_heuristics_check txn profile upi).is_suspicious = true
        then 4 / 10 else 0) +
      3 / 10 * (layer3_for_count cnt txn.amount feats stats
        dist).confidence) ∧
    ((run_fraud_pipeline gm txn profile cnt upi stats X feats
        dist).final_prediction = true ↔
      ((run_fraud_pipeline gm txn profile cnt upi stats X feats
        dist).final_score > 1 / 2 ∨
      (layer2_heuristics_check txn profile upi).is_suspicious = true ∨
      (layer3_for_count cnt txn.amount feats stats dist).is_anomaly =
        true)) := by
  refine ⟨fun hs ha => ?_, fun htrig => ?_, ?_⟩
  · rw [run_fraud_pipeline_final_score, hs, ha]
    simp
  · rw [run_fraud_pipeline_final_score]
    have hor : ((layer2_heuristics_check txn profile upi).is_suspicious ||
        (layer3_for_count cnt txn.amount feats stats dist).is_anomaly) =
        true := by
      rcases htrig with h | h <;> simp [h]
    rw [if_pos hor]
    rcases hb : (layer2_heuristics_check txn profile upi).is_suspicious <;>
      simp [hb] <;> ring
  · rw [run_fraud_pipeline_final_prediction]
    simp [Bool.or_eq_true, decide_eq_true_iff, or_assoc]

/-- C1 witness: with no model, a suspicious Layer B (invalid beneficiary
on a 200 response reporting non-existence), and Layer C gated off, the
final score is `0.3·0.5 + 0.4 + 0 = 0.55` and the prediction is forced to
true. -/
theorem fusion_formula_and_override_witness :
    (run_fraud_pipeline none
      { amount := 100, country := none, beneficiary_vpa := some "x@upi",
        is_night := false }
      { upi_id := none, country := none, transaction_limit := none }
      0 (UpiApiOutcome.response 200 (some false))
      { amount_98_percentile := 0, amount_85_percentile := 0,
        amount_70_percentile := 0, amount_80_percentile := 0,
        amount_90_percentile := 0, distance_85_percentile := 0,
        qr_threshold := 0, device_id_counts := [], vpa_counts := [],
        ip_counts := [] }
      []
      { is_night := false, payment_instrument := 0, device_id := 0,
        beneficiary_vpa := 0 } 0).final_score =
      3 / 10 * (1 / 2) + 4 / 10 + 3 / 10 * 0 := by
  rw [(fusion_formula_and_override none
    { amount := 100, country := none, beneficiary_vpa := some "x@upi",
      is_night := false }
    { upi_id := none, country := none, transaction_limit := none }
    0 (UpiApiOutcome.response 200 (some false))
    { amount_98_percentile := 0, amount_85_percentile := 0,
      amount_70_percentile := 0, amount_80_percentile := 0,
      amount_90_percentile := 0, distance_85_percentile := 0,
      qr_threshold := 0, device_id_counts := [], vpa_counts := [],
      ip_counts := [] }
    []
    { is_night := false, payment_instrument := 0, device_id := 0,
      beneficiary_vpa := 0 } 0).2.1 (Or.inl (by decide))]
  norm_num [run_fraud_pipeline_global_score, layer2_heuristics_check,
    verify_upi_id, truthyStr, limit_rule_fires, country_rule_fires,
    layer3_for_count, empty_layer3_result]
  rw [if_neg (by decide : ¬("x@upi" : String) = "")]
  norm_num

/-- C2: whenever the global score carried by the verdict lies in `[0,1]`
(as the classifier contract promises), the final score lies in `[0,1]`:
the no-trigger branch returns the global score itself, and the trigger
branch `0.3·g + 0.4·[suspicious] + 0.3·c` stays in `[0,1]` because Layer
C's confidence is a sum of triggered rule weights divided by the sum of
all five weights. -/
theorem final_score_in_unit_interval
    (h0 : 0 ≤ (run_fraud_pipeline gm txn profile cnt upi stats X feats
      dist).global_score)
    (h1 : (run_fraud_pipeline gm txn profile cnt upi stats X feats
      dist).global_score ≤ 1) :
    0 ≤ (run_fraud_pipeline gm txn profile cnt upi stats X feats
      dist).final_score ∧
    (run_fraud_pipeline gm txn profile cnt upi stats X feats
      dist).final_score ≤ 1 := by
  obtain ⟨hc0, hc1⟩ :=
    layer3_for_count_confidence_bounds cnt txn.amount feats stats dist
  rw [run_fraud_pipeline_final_score]
  split_ifs with htrig hsusp
  · constructor <;> nlinarith
  · constructor <;> nlinarith
  · exact ⟨h0, h1⟩

/-- C2 witness: at a concrete no-model input the global score is the
neutral 0.5, which lies in `[0,1]`, and so does the final score. -/
theorem final_score_in_unit_interval_witness :
    0 ≤ (run_fraud_pipeline none
      { amount := 100, country := none, beneficiary_vpa := none,
        is_night := false }
      { upi_id := none, country := none, transaction_limit := none }
      0 UpiApiOutcome.exception
      { amount_98_percentile := 0, amount_85_percentile := 0,
        amount_70_percentile := 0, amount_80_percentile := 0,
        amount_90_percentile := 0, distance_85_percentile := 0,
        qr_threshold := 0, device_id_counts := [], vpa_counts := [],
        ip_counts := [] }
      []
      { is_night := false, payment_instrument := 0, device_id := 0,
        beneficiary_vpa := 0 } 0).final_score ∧
    (run_fraud_pipeline none
      { amount := 100, country := none, beneficiary_vpa := none,
        is_night := false }
      { upi_id := none, country := none, transaction_limit := none }
      0 UpiApiOutcome.exception
      { amount_98_percentile := 0, amount_85_percentile := 0,
        amount_70_percentile := 0, amount_80_percentile := 0,
        amount_90_percentile := 0, distance_85_percentile := 0,
        qr_threshold := 0, device_id_counts := [], vpa_counts := [],
        ip_counts := [] }
      []
      { is_night := false, payment_instrument := 0, device_id := 0,
        beneficiary_vpa := 0 } 0).final_score ≤ 1 := by
  apply final_score_in_unit_interval <;>
    · rw [run_fraud_pipeline_global_score]
      norm_num

/-- C7: with at most 10 prior transactions Layer C is a no-op: the verdict
carries anomaly `false`, confidence 0 and an empty triggered-rule list,
regardless of the transaction's amount or any other field; the rule engine
is only evaluated when the count is strictly greater than 10. -/
theorem layer_c_gated_below_eleven (h : cnt ≤ 10) :
    layer3_for_count cnt txn.amount feats stats dist =
      empty_layer3_result ∧
    (run_fraud_pipeline gm txn profile cnt upi stats X feats
      dist).local_layer_pred = false ∧
    (run_fraud_pipeline gm txn profile cnt upi stats X feats
      dist).layer3_score = 0 ∧
    (run_fraud_pipeline gm txn profile cnt upi stats X feats
      dist).rules_triggered = [] := by
  have hg : layer3_for_count cnt txn.amount feats stats dist =
      empty_layer3_result := by
    unfold layer3_for_count
    rw [if_neg (by omega)]
  obtain ⟨hp, hs, hr⟩ :=
    run_fraud_pipeline_layer3_fields gm txn profile cnt upi stats X feats
      dist
  refine ⟨hg, ?_, ?_, ?_⟩
  · rw [hp, hg]; rfl
  · rw [hs, hg]; rfl
  · rw [hr, hg]; rfl

/-- C7 witness: a count of exactly 10 with an enormous amount and all-zero
percentile baselines (each Layer C rule would fire if evaluated) still
yields the empty Layer C output. -/
theorem layer_c_gated_below_eleven_witness :
    (run_fraud_pipeline none
      { amount := 50000, country := none, beneficiary_vpa := none,
        is_night := true }
      { upi_id := none, country := none, transaction_limit := none }
      10 UpiApiOutcome.exception
      { amount_98_percentile := 0, amount_85_percentile := 0,
        amount_70_percentile := 0, amount_80_percentile := 0,
        amount_90_percentile := 0, distance_85_percentile := 0,
        qr_threshold := 0, device_id_counts := [], vpa_counts := [],
        ip_counts := [] }
      []
      { is_night := true, payment_instrument := 0, device_id := 5,
        beneficiary_vpa := 7 } 0).rules_triggered = [] := by
  exact (layer_c_gated_below_eleven none
    { amount := 50000, country := none, beneficiary_vpa := none,
      is_night := true }
    { upi_id := none, country := none, transaction_limit := none }
    10 UpiApiOutcome.exception
    { amount_98_percentile := 0, amount_85_percentile := 0,
      amount_70_percentile := 0, amount_80_percentile := 0,
      amount_90_percentile := 0, distance_85_percentile := 0,
      qr_threshold := 0, device_id_counts := [], vpa_counts := [],
      ip_counts := [] }
    []
    { is_night := true, payment_instrument := 0, device_id := 5,
      beneficiary_vpa := 7 } 0 (by norm_num)).2.2.2

/-- C3 counterexample: a missing classifier or encoder artifact does NOT
abort startup.  The module-level `try/except FileNotFoundError` blocks
catch the error: loading a missing model file returns normally with
`global_model = None`, loading a missing encoder file returns the empty
table, and the pipeline then serves requests, scoring Layer A with the
neutral default 0.5 — refuting "the process refuses to serve". -/
theorem startup_missing_artifact_not_fatal :
    load_global_model ArtifactFile.missing = Except.ok none ∧
    load_encoder_artifact ([] : List (String × List (String × Nat)))
      ArtifactFile.missing = Except.ok [] ∧
    (run_fraud_pipeline none
      { amount := 100, country := none, beneficiary_vpa := none,
        is_night := false }
      { upi_id := none, country := none, transaction_limit := none }
      0 UpiApiOutcome.exception
      { amount_98_percentile := 0, amount_85_percentile := 0,
        amount_70_percentile := 0, amount_80_percentile := 0,
        amount_90_percentile := 0, distance_85_percentile := 0,
        qr_threshold := 0, device_id_counts := [], vpa_counts := [],
        ip_counts := [] }
      []
      { is_night := false, payment_instrument := 0, device_id := 0,
        beneficiary_vpa := 0 } 0).global_score = 1 / 2 := by
  refine ⟨rfl, rfl, ?_⟩
  rw [run_fraud_pipeline_global_score]

/-- C3 amended: only a *corrupt* artifact (an exception other than
`FileNotFoundError` during `pickle.load`) aborts startup; a *missing*
artifact is caught by the `except FileNotFoundError` handler and the
process continues to serve with `global_model = None` (respectively an
empty encoder table), so every subsequent pipeline run falls back to the
neutral Layer A score 0.5.  The degraded 0.5 mode is thus the startup
outcome for missing artifacts, not a condition distinct from it. -/
theorem startup_load_caught_vs_uncaught (m : GlobalModel) :
    load_global_model (ArtifactFile.present m) = Except.ok (some m) ∧
    load_global_model ArtifactFile.missing = Except.ok none ∧
    (∃ e, load_global_model ArtifactFile.corrupt = Except.error e) ∧
    load_encoder_artifact ([] : List (String × List (String × Nat)))
      ArtifactFile.missing = Except.ok [] ∧
    (∃ e, load_encoder_artifact
      ([] : List (String × List (String × Nat))) ArtifactFile.corrupt =
      Except.error e) ∧
    (run_fraud_pipeline none txn profile cnt upi stats X feats
      dist).global_score = 1 / 2 := by
  refine ⟨rfl, rfl, ⟨_, rfl⟩, rfl, ⟨_, rfl⟩, ?_⟩
  rw [run_fraud_pipeline_global_score]

end Pipeline

end CipherStorm
